import Mathlib

/-!
Shallow embedding of the core of the rsipstack SIP library: the client and
server INVITE dialog state machines (src/dialog/client_dialog.rs,
src/dialog/server_dialog.rs) and the TCP stream transport read loop
(src/transport/tcp.rs).

The shared `DialogInner` mechanics (`transition`, `make_request`,
`make_response`, `update_remote_tag`, `do_request`) live in
src/dialog/dialog.rs, which is not part of the provided sources; those are
modelled from the specification (section 4.1) and are marked as such.
Everything else is translated directly from the Rust sources.

Conventions: SIP status codes are natural numbers (100 Trying, 180 Ringing,
183 SessionProgress, 200 OK, 401 Unauthorized, 407 ProxyAuthenticationRequired,
487 RequestTerminated, 500 ServerInternalError, 603 Decline). Async effects
(replies, sent requests, transport writes) are collected into explicit output
lists; fallible operations return `Except`.
-/

namespace Rsipstack

/-- SIP request methods that appear in the dialog layer. -/
inductive Method where
  | invite | ack | bye | cancel | info | options | register | other
deriving DecidableEq, Repr

/-- DialogId: the triple (call-id, local-tag, remote-tag); an empty string
models an absent remote tag. -/
structure DialogId where
  callId : String
  localTag : String
  remoteTag : String
deriving DecidableEq, Repr

/-- The fields of a SIP request that the dialog code reads or constructs:
method, CSeq number, the branch parameter of the top Via header (if any),
and the identity fields a `DialogId` is derived from. -/
structure Request where
  method : Method
  cseq : Nat
  viaBranch : Option String
  callId : String
  fromTag : String
  toTag : String
  body : List Nat
deriving DecidableEq, Repr

/-- The fields of a SIP response that the dialog code reads: status code,
the To-header tag (if any), the CSeq number and the reason phrase. -/
structure Response where
  status : Nat
  toTag : Option String
  cseq : Nat
  reasonPhrase : Option String
  extraHeaders : List Nat := []
  body : List Nat := []
deriving DecidableEq, Repr

/-- A SIP message is a request or a response. -/
inductive SipMsg where
  | request (r : Request)
  | response (r : Response)
deriving DecidableEq, Repr

/-- DialogState, from src/dialog/dialog.rs via the spec's table: each variant
carries the `DialogId` plus its payload. -/
inductive DialogState where
  | calling (id : DialogId)
  | trying (id : DialogId)
  | early (id : DialogId) (resp : Response)
  | waitAck (id : DialogId) (resp : Response)
  | confirmed (id : DialogId)
  | info (id : DialogId) (req : Request)
  | options (id : DialogId) (req : Request)
  | terminated (id : DialogId) (status : Option Nat)
deriving DecidableEq, Repr

/-- Errors surfaced by the dialog layer. -/
inductive Err where
  | dialogError (msg : String) (id : DialogId)
  | illegalStateTransition
  | transactionTerminated
deriving DecidableEq, Repr

/-- Authentication material held by a dialog (contents irrelevant to the
claims; presence or absence is what the code branches on). -/
structure Credential where
  username : String
  password : String
deriving DecidableEq, Repr

/-- The shared dialog record, from the spec's data model (section 3): identity,
the original INVITE, the two CSeq counters, optional credential, current state
and the optional transaction sender handle (a token models the channel). -/
structure DialogInner where
  id : DialogId
  initialRequest : Request
  localSeq : Nat
  remoteSeq : Nat
  credential : Option Credential
  state : DialogState
  tuSender : Option Nat
deriving DecidableEq, Repr

/-- Modelled from the spec: `is_confirmed()` is true iff the state is
`Confirmed`, `Info`, or `Options`. -/
def DialogInner.isConfirmed (inner : DialogInner) : Bool :=
  match inner.state with
  | .confirmed _ => true
  | .info _ _ => true
  | .options _ _ => true
  | _ => false

/-- States from which a transition into `Confirmed` is legal. -/
def canConfirmFrom : DialogState → Bool
  | .calling _ => true
  | .trying _ => true
  | .early _ _ => true
  | .waitAck _ _ => true
  | _ => false

/-- Modelled from the spec: `DialogInner::transition` (src/dialog/dialog.rs is
not among the provided sources). It mutates `state` under the lock, rejects any
transition out of `Terminated`, and returns `IllegalStateTransition` when the
new state is `Confirmed` and the current state is neither `Calling`, `Trying`,
`Early` nor `WaitAck`. The broadcast on the state sink is a pure observation
and is not modelled. -/
def DialogInner.transition (inner : DialogInner) (new : DialogState) :
    Except Err DialogInner :=
  match inner.state with
  | .terminated _ _ => .error .illegalStateTransition
  | _ =>
    match new with
    | .confirmed _ =>
      if canConfirmFrom inner.state then .ok { inner with state := new }
      else .error .illegalStateTransition
    | _ => .ok { inner with state := new }

/-- Modelled from the spec: `DialogInner::make_request` (src/dialog/dialog.rs
is not among the provided sources). Builds a mid-dialog request; when `cseq`
is absent and the method is not ACK/CANCEL it allocates the next `local_seq`;
From/To tags and Call-ID come from the dialog identity; the supplied branch
goes on the top Via. Returns the updated inner record together with the
request. -/
def DialogInner.makeRequest (inner : DialogInner) (method : Method)
    (cseq : Option Nat) (branch : Option String) (body : Option (List Nat)) :
    DialogInner × Request :=
  let mk : Nat → Request := fun n =>
    { method := method
      cseq := n
      viaBranch := branch
      callId := inner.id.callId
      fromTag := inner.id.localTag
      toTag := inner.id.remoteTag
      body := body.getD [] }
  match cseq with
  | some n => (inner, mk n)
  | none =>
    if method = .ack ∨ method = .cancel then (inner, mk inner.localSeq)
    else
      let n := inner.localSeq + 1
      ({ inner with localSeq := n }, mk n)

/-- Modelled from the spec: `DialogInner::make_response` (src/dialog/dialog.rs
is not among the provided sources). Mirrors the request's CSeq, injects the
local tag into To, and carries the supplied extra headers (opaque tokens
here) and body; record-route copying has no observable content in this
model. -/
def DialogInner.makeResponse (inner : DialogInner) (req : Request)
    (status : Nat) (headers : Option (List Nat)) (body : Option (List Nat)) :
    Response :=
  { status := status
    toTag := some inner.id.localTag
    cseq := req.cseq
    reasonPhrase := none
    extraHeaders := headers.getD []
    body := body.getD [] }

/-- Modelled from the spec: `DialogInner::update_remote_tag`
(src/dialog/dialog.rs is not among the provided sources): sets the remote tag
inside `id` if it is empty; if already set to a different value, fails with a
`DialogError`. -/
def DialogInner.updateRemoteTag (inner : DialogInner) (tag : String) :
    Except Err DialogInner :=
  if inner.id.remoteTag = "" then
    .ok { inner with id := { inner.id with remoteTag := tag } }
  else if inner.id.remoteTag = tag then .ok inner
  else .error (.dialogError "remote tag mismatch" inner.id)

/-- Modelled from the spec: `DialogId::try_from(&Request)` derives the dialog
triple (Call-ID, From-tag, To-tag) from a request the UA sends. -/
def DialogId.tryFromRequest (req : Request) : Except Err DialogId :=
  .ok { callId := req.callId, localTag := req.fromTag, remoteTag := req.toTag }

/-! ## TCP transport (src/transport/tcp.rs) -/

/-- Transport kinds of `SipAddr` (rsip::transport::Transport). -/
inductive TransportKind where
  | udp | tcp | tls | ws | wss
deriving DecidableEq, Repr

/-- A network address; contents are opaque to the transport code modelled
here, so a string stands for the resolved host and port. -/
structure NetAddr where
  host : String
  port : Nat
deriving DecidableEq, Repr

/-- SipAddr: optional transport kind plus a socket address
(src/transport/sip_addr.rs via its uses in tcp.rs). -/
structure SipAddr where
  kind : Option TransportKind
  addr : NetAddr
deriving DecidableEq, Repr

/-- The address-relevant part of `TcpInner` built by `TcpConnection::connect`
and `from_stream`: the recorded local address and the optional remote
address. The reader and writer halves carry no address information. -/
structure TcpInner where
  localAddr : SipAddr
  remoteAddr : Option SipAddr
deriving DecidableEq, Repr

/-- Embeds `TcpConnection::connect(remote)` (src/transport/tcp.rs lines 31-58):
after the stream is dialled, the recorded local address is built from the
REMOTE address with TCP transport kind, and the remote address is recorded
as given. Only the address bookkeeping is modelled; the socket itself is
external I/O. -/
def TcpConnection.connect (remote : SipAddr) : TcpInner :=
  { localAddr := { kind := some TransportKind.tcp, addr := remote.addr }
    remoteAddr := some remote }

/-- Embeds `StreamConnection::get_addr` for TcpConnection (src/transport/tcp.rs
lines 139-141): returns the recorded local address. -/
def TcpConnection.getAddr (inner : TcpInner) : SipAddr :=
  inner.localAddr

/-- Modelled from the spec: `KEEPALIVE_REQUEST` is the four bytes CR LF CR LF
(src/transport/connection.rs is not among the provided sources; the spec fixes
the constant as the double CRLF). -/
def KEEPALIVE_REQUEST : List Nat := [13, 10, 13, 10]

/-- Modelled from the spec: `KEEPALIVE_RESPONSE` is the two bytes CR LF. -/
def KEEPALIVE_RESPONSE : List Nat := [13, 10]

/-- Rust's `u8::is_ascii_whitespace`: space, horizontal tab, line feed,
form feed, carriage return. -/
def isAsciiWhitespace (b : Nat) : Bool :=
  b = 32 ∨ b = 9 ∨ b = 10 ∨ b = 12 ∨ b = 13

/-- Observable effects of one iteration of the TCP read loop. -/
inductive TOut where
  | sendRaw (bytes : List Nat)
  | incoming (msg : SipMsg)
deriving DecidableEq, Repr

/-- Writing a fresh read of `data` over the front of the persistent 2048-byte
buffer: the bytes beyond `data.length` keep their previous contents. -/
def overwriteBuf (prev data : List Nat) : List Nat :=
  data ++ prev.drop data.length

/-- One iteration of `TcpConnection::serve_loop` (src/transport/tcp.rs lines
157-200), after a read that placed `data` (the first `len` bytes) into the
persistent buffer whose previous contents were `prev`. `parseMsg` stands for
the composition of UTF-8 decoding and `rsip::SipMessage::try_from`; either
failure makes the loop log and continue. Faithful to the source, the
keepalive matches inspect only the freshly read bytes while the whitespace
test inspects the WHOLE buffer (`buf.iter()`), including stale bytes beyond
`len`. Returns the buffer after the iteration and the emitted effects. -/
def serveLoopStep (parseMsg : List Nat → Option SipMsg)
    (prev data : List Nat) : List Nat × List TOut :=
  if data.length = 0 then (prev, [])
  else
    let buf := overwriteBuf prev data
    if data = KEEPALIVE_REQUEST then (buf, [TOut.sendRaw KEEPALIVE_RESPONSE])
    else if data = KEEPALIVE_RESPONSE then (buf, [])
    else if buf.all isAsciiWhitespace then (buf, [])
    else
      match parseMsg data with
      | none => (buf, [])
      | some m => (buf, [TOut.incoming m])

/-! ## Transactions and observable dialog effects -/

/-- The part of a `Transaction` the dialog code observes: the original
request, the list of inbound messages `receive()` will yield before the
transaction terminates, and a token standing for its `tu_sender` channel. -/
structure Tx where
  original : Request
  msgs : List SipMsg
  tok : Nat
deriving DecidableEq, Repr

/-- Observable effects the dialog layer produces: replies on a server
transaction, `send_trying`, `send`/`send_ack` on a client transaction,
`TransactionEvent::Respond`/`Received` pushed into a `tu_sender`, and
requests sent through `do_request`. -/
inductive DOut where
  | reply (status : Nat)
  | sentTrying
  | send (r : Request)
  | sendAck (r : Request)
  | respond (r : Response)
  | tuReceived (r : Request)
  | sentRequest (r : Request)
deriving DecidableEq, Repr

/-- Modelled from the spec: `increment_local_seq()` is an atomic
fetch-and-add allocating the next `local_seq`. -/
def DialogInner.incrementLocalSeq (inner : DialogInner) : DialogInner × Nat :=
  ({ inner with localSeq := inner.localSeq + 1 }, inner.localSeq + 1)

/-! ## ServerInviteDialog (src/dialog/server_dialog.rs) -/

/-- One iteration of `handle_invite`'s receive loop (src/dialog/server_dialog.rs
lines 196-215): ACK transitions to `Confirmed`; CANCEL replies
`487 Request Terminated` and then transitions to `Terminated(Some(487))`;
every other request and every response is ignored. -/
def hiStep (inner : DialogInner) (msg : SipMsg) :
    Except Err Unit × DialogInner × List DOut :=
  match msg with
  | .request req =>
    match req.method with
    | .ack =>
      match inner.transition (.confirmed inner.id) with
      | .error e => (.error e, inner, [])
      | .ok inner1 => (.ok (), inner1, [])
    | .cancel =>
      match inner.transition (.terminated inner.id (some 487)) with
      | .error e => (.error e, inner, [DOut.reply 487])
      | .ok inner1 => (.ok (), inner1, [DOut.reply 487])
    | _ => (.ok (), inner, [])
  | .response _ => (.ok (), inner, [])

/-- The receive loop of `handle_invite`, folded over the messages the
transaction yields; an error from an iteration stops the loop and is
propagated. -/
def hiLoop (inner : DialogInner) :
    List SipMsg → Except Err Unit × DialogInner × List DOut
  | [] => (.ok (), inner, [])
  | m :: rest =>
    match hiStep inner m with
    | (.error e, inner1, outs) => (.error e, inner1, outs)
    | (.ok _, inner1, outs) =>
      let r := hiLoop inner1 rest
      (r.1, r.2.1, outs ++ r.2.2)

/-- The `handle_loop` async block of `handle_invite`
(src/dialog/server_dialog.rs lines 190-217): when the dialog is not yet
confirmed it transitions to `Calling` and sends `100 Trying`, then runs the
receive loop. -/
def hiBody (tx : Tx) (inner : DialogInner) :
    Except Err Unit × DialogInner × List DOut :=
  if inner.isConfirmed then hiLoop inner tx.msgs
  else
    match inner.transition (.calling inner.id) with
    | .error e => (.error e, inner, [])
    | .ok inner1 =>
      let r := hiLoop inner1 tx.msgs
      (r.1, r.2.1, DOut.sentTrying :: r.2.2)

/-- Embeds `ServerInviteDialog::handle_invite` (src/dialog/server_dialog.rs lines
183-230): installs the transaction's `tu_sender` on entry, runs the handle
loop, and on both the normal and the error exit clears `tu_sender` before
returning; a loop error is returned to the caller. -/
def handleInvite (tx : Tx) (inner : DialogInner) :
    Except Err Unit × DialogInner × List DOut :=
  let innerIn := { inner with tuSender := some tx.tok }
  let r := hiBody tx innerIn
  (r.1, { r.2.1 with tuSender := none }, r.2.2)

/-- Embeds `ServerInviteDialog::accept` (src/dialog/server_dialog.rs lines 28-48):
with a live `tu_sender`, builds a 200 OK from the initial request plus the
supplied headers and body, dispatches it as `TransactionEvent::Respond` and
transitions to `WaitAck(resp)`; with no live transaction it fails with a
`DialogError` and touches nothing. -/
def ServerInviteDialog.accept (inner : DialogInner)
    (headers : Option (List Nat)) (body : Option (List Nat)) :
    Except Err Unit × DialogInner × List DOut :=
  match inner.tuSender with
  | some _ =>
    let resp := inner.makeResponse inner.initialRequest 200 headers body
    match inner.transition (.waitAck inner.id resp) with
    | .error e => (.error e, inner, [DOut.respond resp])
    | .ok inner1 => (.ok (), inner1, [DOut.respond resp])
  | none =>
    (.error (.dialogError "transaction is already terminated" inner.id),
     inner, [])

/-- Embeds `ServerInviteDialog::handle_bye` (src/dialog/server_dialog.rs lines
159-165): transition `Terminated(None)` then reply 200. -/
def serverHandleBye (inner : DialogInner) :
    Except Err Unit × DialogInner × List DOut :=
  match inner.transition (.terminated inner.id none) with
  | .error e => (.error e, inner, [])
  | .ok inner1 => (.ok (), inner1, [DOut.reply 200])

/-- Embeds `ServerInviteDialog::handle_info` (src/dialog/server_dialog.rs lines
167-173): transition `Info(req)` then reply 200. -/
def serverHandleInfo (inner : DialogInner) (tx : Tx) :
    Except Err Unit × DialogInner × List DOut :=
  match inner.transition (.info inner.id tx.original) with
  | .error e => (.error e, inner, [])
  | .ok inner1 => (.ok (), inner1, [DOut.reply 200])

/-- Embeds `ServerInviteDialog::handle_options` (src/dialog/server_dialog.rs lines
175-181): transition `Options(req)` then reply 200. -/
def serverHandleOptions (inner : DialogInner) (tx : Tx) :
    Except Err Unit × DialogInner × List DOut :=
  match inner.transition (.options inner.id tx.original) with
  | .error e => (.error e, inner, [])
  | .ok inner1 => (.ok (), inner1, [DOut.reply 200])

/-- Embeds `ServerInviteDialog::handle` (src/dialog/server_dialog.rs lines 99-157):
a stale request (CSeq below `remote_seq`) is silently discarded; otherwise
the CSeq becomes the new `remote_seq` and the request is dispatched — when
confirmed, BYE/INFO/OPTIONS get their handlers, unknown methods get 405 plus
a `DialogError`, and INVITE/ACK fall through to `handle_invite`; when not
confirmed, an ACK is forwarded into the live `tu_sender` (if any) and
everything else falls through to `handle_invite`. -/
def serverHandle (inner : DialogInner) (tx : Tx) :
    Except Err Unit × DialogInner × List DOut :=
  let cseq := tx.original.cseq
  if cseq < inner.remoteSeq then (.ok (), inner, [])
  else
    let inner1 := { inner with remoteSeq := cseq }
    if inner1.isConfirmed then
      match tx.original.method with
      | .invite => handleInvite tx inner1
      | .ack => handleInvite tx inner1
      | .bye => serverHandleBye inner1
      | .info => serverHandleInfo inner1 tx
      | .options => serverHandleOptions inner1 tx
      | _ =>
        (.error (.dialogError "invalid request" inner1.id), inner1,
         [DOut.reply 405])
    else
      match tx.original.method with
      | .ack =>
        (.ok (), inner1,
         if inner1.tuSender.isSome then [DOut.tuReceived tx.original] else [])
      | _ => handleInvite tx inner1

/-- Embeds `ServerInviteDialog::info` (src/dialog/server_dialog.rs lines 88-97):
no-op unless confirmed; otherwise sends an INFO through `do_request` and
performs no transition. The outcome of `do_request` is supplied by the
environment as the oracle `doReq`. -/
def serverInfo (inner : DialogInner)
    (doReq : Request → Except Err (Option Response)) :
    Except Err Unit × DialogInner × List DOut :=
  if inner.isConfirmed then
    let r := inner.makeRequest .info none none none
    match doReq r.2 with
    | .error e => (.error e, r.1, [DOut.sentRequest r.2])
    | .ok _ => (.ok (), r.1, [DOut.sentRequest r.2])
  else (.ok (), inner, [])

/-! ## ClientInviteDialog (src/dialog/client_dialog.rs) -/

/-- Embeds `ClientInviteDialog::handle_bye` (src/dialog/client_dialog.rs lines
118-124): transition `Terminated(None)` then reply 200. -/
def clientHandleBye (inner : DialogInner) :
    Except Err Unit × DialogInner × List DOut :=
  match inner.transition (.terminated inner.id none) with
  | .error e => (.error e, inner, [])
  | .ok inner1 => (.ok (), inner1, [DOut.reply 200])

/-- Embeds `ClientInviteDialog::handle_info` (src/dialog/client_dialog.rs lines
126-132): transition `Info(req)` then reply 200. -/
def clientHandleInfo (inner : DialogInner) (tx : Tx) :
    Except Err Unit × DialogInner × List DOut :=
  match inner.transition (.info inner.id tx.original) with
  | .error e => (.error e, inner, [])
  | .ok inner1 => (.ok (), inner1, [DOut.reply 200])

/-- Embeds `ClientInviteDialog::handle_options` (src/dialog/client_dialog.rs lines
134-140): transition `Options(req)` then reply 200. -/
def clientHandleOptions (inner : DialogInner) (tx : Tx) :
    Except Err Unit × DialogInner × List DOut :=
  match inner.transition (.options inner.id tx.original) with
  | .error e => (.error e, inner, [])
  | .ok inner1 => (.ok (), inner1, [DOut.reply 200])

/-- Embeds `ClientInviteDialog::handle` (src/dialog/client_dialog.rs lines 74-116):
a stale request (CSeq below `remote_seq`) is answered with
`500 ServerInternalError` and the call returns with nothing else changed;
otherwise the CSeq becomes the new `remote_seq` and, when the dialog is
confirmed, the method is dispatched (INVITE ignored, BYE/INFO/OPTIONS
handled, anything else answered 405 with a `DialogError`); before
confirmation the request is logged and ignored. -/
def clientHandle (inner : DialogInner) (tx : Tx) :
    Except Err Unit × DialogInner × List DOut :=
  let cseq := tx.original.cseq
  if cseq < inner.remoteSeq then (.ok (), inner, [DOut.reply 500])
  else
    let inner1 := { inner with remoteSeq := cseq }
    if inner1.isConfirmed then
      match tx.original.method with
      | .invite => (.ok (), inner1, [])
      | .bye => clientHandleBye inner1
      | .info => clientHandleInfo inner1 tx
      | .options => clientHandleOptions inner1 tx
      | _ =>
        (.error (.dialogError "invalid request" inner1.id), inner1,
         [DOut.reply 405])
    else (.ok (), inner1, [])

/-- Embeds `ClientInviteDialog::info` (src/dialog/client_dialog.rs lines 60-72):
no-op unless confirmed; otherwise sends an INFO through `do_request` and,
once it completes, transitions to `Info(request)`. -/
def clientInfo (inner : DialogInner)
    (doReq : Request → Except Err (Option Response)) :
    Except Err Unit × DialogInner × List DOut :=
  if inner.isConfirmed then
    let r := inner.makeRequest .info none none none
    match doReq r.2 with
    | .error e => (.error e, r.1, [DOut.sentRequest r.2])
    | .ok _ =>
      match r.1.transition (.info r.1.id r.2) with
      | .error e => (.error e, r.1, [DOut.sentRequest r.2])
      | .ok inner2 => (.ok (), inner2, [DOut.sentRequest r.2])
  else (.ok (), inner, [])

/-! ## ClientInviteDialog::process_invite (src/dialog/client_dialog.rs
lines 142-253) -/

/-- Modelled from rsip: the `Display` of `StatusCode` prints the numeric
code. -/
def statusCodeDisplay (s : Nat) : String := toString s

/-- Modelled from the spec: `handle_client_authenticate`
(src/dialog/authenticate.rs is not among the provided sources): rebuilds the
INVITE with the freshly allocated CSeq and a Digest Authorization header
computed from the challenge and the credential, and replaces the
transaction. Only the CSeq change is observable in this model. -/
def handleClientAuthenticate (newSeq : Nat) (tx : Tx) (_resp : Response)
    (_cred : Credential) : Tx :=
  { tx with original := { tx.original with cseq := newSeq } }

/-- The mutable state of the `process_invite` receive loop: the current
transaction (replaced on an authentication resubmission), the dialog inner,
the `auth_sent` flag, the working `dialog_id` and the captured
`final_response`. -/
structure PIState where
  tx : Tx
  inner : DialogInner
  authSent : Bool
  dialogId : DialogId
  finalResponse : Option Response
deriving DecidableEq, Repr

/-- Outcome of one iteration of the `process_invite` receive loop:
continue, break, or return an error. -/
inductive PIRes where
  | next (s : PIState) (outs : List DOut)
  | stop (s : PIState) (outs : List DOut)
  | fail (e : Err) (s : PIState) (outs : List DOut)
deriving DecidableEq, Repr

/-- One iteration of `process_invite`'s receive loop
(src/dialog/client_dialog.rs lines 151-251). Requests are ignored. A 100
transitions to `Trying`; 180/183 transition to `Early(resp)`. A 401/407
after `auth_sent` records the response as final, transitions to
`Terminated(status)` and breaks; before `auth_sent`, a present credential
triggers a Digest resubmission (CSeq incremented, new transaction sent),
and an absent credential transitions to `Terminated(status)` and continues
without recording a final response. Every other status is captured as
`final_response`; the To tag is absorbed; a missing branch on the outbound
INVITE's top Via is a `DialogError` (no ACK sent); otherwise an ACK is built
from that branch and the response's CSeq, a `DialogId` derived from the ACK
is adopted, the ACK is sent, and the dialog transitions to `Confirmed` on a
200 or to `Terminated(status)` with a `DialogError` on anything else. -/
def piStep (s : PIState) (msg : SipMsg) : PIRes :=
  match msg with
  | .request _ => .next s []
  | .response resp =>
    if resp.status = 100 then
      match s.inner.transition (.trying s.inner.id) with
      | .error e => .fail e s []
      | .ok inner1 => .next { s with inner := inner1 } []
    else if resp.status = 180 ∨ resp.status = 183 then
      match s.inner.transition (.early s.inner.id resp) with
      | .error e => .fail e s []
      | .ok inner1 => .next { s with inner := inner1 } []
    else if resp.status = 407 ∨ resp.status = 401 then
      if s.authSent then
        let s1 := { s with finalResponse := some resp }
        match s1.inner.transition (.terminated s1.inner.id (some resp.status)) with
        | .error e => .fail e s1 []
        | .ok inner1 => .stop { s1 with inner := inner1 } []
      else
        let s1 := { s with authSent := true }
        match s1.inner.credential with
        | some cred =>
          let r := s1.inner.incrementLocalSeq
          let tx1 := handleClientAuthenticate r.2 s1.tx resp cred
          .next { s1 with inner := r.1, tx := tx1 } [DOut.send tx1.original]
        | none =>
          match s1.inner.transition
              (.terminated s1.inner.id (some resp.status)) with
          | .error e => .fail e s1 []
          | .ok inner1 => .next { s1 with inner := inner1 } []
    else
      let s1 := { s with finalResponse := some resp }
      let tagRes : Except Err DialogInner :=
        match resp.toTag with
        | some tag => s1.inner.updateRemoteTag tag
        | none => .ok s1.inner
      match tagRes with
      | .error e => .fail e s1 []
      | .ok inner1 =>
        let s2 := { s1 with inner := inner1 }
        match s2.tx.original.viaBranch with
        | none =>
          .fail (.dialogError "no branch found in via header" s2.inner.id)
            s2 []
        | some branch =>
          let r := s2.inner.makeRequest .ack (some resp.cseq)
            (some branch) none
          let s3 := { s2 with inner := r.1 }
          let s4 :=
            match DialogId.tryFromRequest r.2 with
            | .ok newId => { s3 with dialogId := newId }
            | .error _ => s3
          if resp.status = 200 then
            match s4.inner.transition (.confirmed s4.dialogId) with
            | .error e => .fail e s4 [DOut.sendAck r.2]
            | .ok inner3 =>
              .next { s4 with inner := inner3 } [DOut.sendAck r.2]
          else
            let reason :=
              match resp.reasonPhrase with
              | some rp => statusCodeDisplay resp.status ++ ";" ++ rp
              | none => statusCodeDisplay resp.status
            match s4.inner.transition
                (.terminated s4.inner.id (some resp.status)) with
            | .error e => .fail e s4 [DOut.sendAck r.2]
            | .ok inner3 =>
              .fail (.dialogError reason inner3.id)
                { s4 with inner := inner3 } [DOut.sendAck r.2]

/-- The receive loop of `process_invite`, folded over the messages the
transaction yields. -/
def processInviteLoop (s : PIState) :
    List SipMsg → Except Err Unit × PIState × List DOut
  | [] => (.ok (), s, [])
  | m :: rest =>
    match piStep s m with
    | .next s1 outs =>
      let r := processInviteLoop s1 rest
      (r.1, r.2.1, outs ++ r.2.2)
    | .stop s1 outs => (.ok (), s1, outs)
    | .fail e s1 outs => (.error e, s1, outs)

/-- Embeds `ClientInviteDialog::process_invite` (src/dialog/client_dialog.rs lines
142-253): transition `Calling`, send the INVITE, drive the receive loop and
return the final `DialogId` and captured `final_response`. -/
def processInvite (inner : DialogInner) (tx : Tx) :
    Except Err (DialogId × Option Response) × DialogInner × List DOut :=
  match inner.transition (.calling inner.id) with
  | .error e => (.error e, inner, [])
  | .ok inner1 =>
    let s0 : PIState :=
      { tx := tx, inner := inner1, authSent := false, dialogId := inner1.id,
        finalResponse := none }
    let r := processInviteLoop s0 tx.msgs
    match r.1 with
    | .error e => (.error e, r.2.1.inner, DOut.send tx.original :: r.2.2)
    | .ok _ =>
      (.ok (r.2.1.dialogId, r.2.1.finalResponse), r.2.1.inner,
       DOut.send tx.original :: r.2.2)

/-! ## Helper predicates and general lemmas -/

/-- Whether a dialog state is `Terminated`. -/
def DialogState.isTerminated : DialogState → Bool
  | .terminated _ _ => true
  | _ => false

/-- Whether a target state is `Confirmed` (the one target `transition`
restricts by predecessor). -/
def confirmTarget : DialogState → Bool
  | .confirmed _ => true
  | _ => false

/-- Whether a transport effect is an `Incoming` event. -/
def TOut.isIncoming : TOut → Bool
  | .incoming _ => true
  | _ => false

theorem transition_shape (inner : DialogInner) (new : DialogState) :
    inner.transition new = .error Err.illegalStateTransition ∨
    inner.transition new = .ok { inner with state := new } := by
  unfold DialogInner.transition
  cases hs : inner.state <;> cases new <;> simp [canConfirmFrom]

theorem transition_ok (inner : DialogInner) (new : DialogState)
    (ht : inner.state.isTerminated = false)
    (hc : confirmTarget new = false ∨ canConfirmFrom inner.state = true) :
    inner.transition new = .ok { inner with state := new } := by
  unfold DialogInner.transition
  cases hs : inner.state <;> cases new <;>
    simp_all [DialogState.isTerminated, confirmTarget, canConfirmFrom]

/-! ## Concrete fixtures used by witnesses and counterexamples -/

/-- A concrete dialog id with the remote tag still empty. -/
def cId0 : DialogId := { callId := "c1", localTag := "lt", remoteTag := "" }

/-- A concrete dialog id with all three fields set. -/
def cId : DialogId := { callId := "c1", localTag := "lt", remoteTag := "rt" }

/-- A concrete outbound INVITE with a branch on its top Via. -/
def cInvite : Request :=
  { method := .invite, cseq := 1, viaBranch := some "z9hG4bK-1",
    callId := "c1", fromTag := "lt", toTag := "", body := [] }

/-- A concrete client dialog inner in the `Calling` state, remote tag not
yet learnt, no credential, no live transaction sender. -/
def cInnerCalling : DialogInner :=
  { id := cId0, initialRequest := cInvite, localSeq := 1, remoteSeq := 0,
    credential := none, state := .calling cId0, tuSender := none }

/-- A concrete confirmed dialog inner. -/
def cInnerConfirmed : DialogInner :=
  { id := cId, initialRequest := cInvite, localSeq := 1, remoteSeq := 5,
    credential := none, state := .confirmed cId, tuSender := none }

/-- A confirmed inner with `remote_seq` zero, for the max-CSeq fold. -/
def cInnerZero : DialogInner :=
  { cInnerConfirmed with remoteSeq := 0 }

/-- A mid-dialog BYE request carrying CSeq `n`. -/
def cBye (n : Nat) : Request :=
  { method := .bye, cseq := n, viaBranch := some "z9hG4bK-2",
    callId := "c1", fromTag := "rt", toTag := "lt", body := [] }

/-- A transaction for a request, with no further inbound messages. -/
def cTxOf (r : Request) : Tx := { original := r, msgs := [], tok := 7 }

/-! ## C9 -/

/-- C9: after `TcpConnection::connect(remote)`, the recorded local `SipAddr`
is built from the remote peer's address with TCP transport kind, so
`get_addr()` returns an address whose socket address equals the remote's
address (not the socket's actual local address). -/
theorem C9_connect_local_addr_is_remote (remote : SipAddr) :
    TcpConnection.getAddr (TcpConnection.connect remote) =
      { kind := some TransportKind.tcp, addr := remote.addr } ∧
    (TcpConnection.getAddr (TcpConnection.connect remote)).addr =
      remote.addr :=
  ⟨rfl, rfl⟩

/-! ## C8 -/

/-- C8: `handle_invite` installs the transaction's `tu_sender` on entry (the
handle loop runs on the inner record with `tuSender := some tx.tok`), and on
every exit path — normal completion or error — `tu_sender` is `none` in the
returned state; the loop's result, error included, is returned unchanged to
the caller. -/
theorem C8_handle_invite_tu_sender (tx : Tx) (inner : DialogInner) :
    (handleInvite tx inner).2.1.tuSender = none ∧
    (handleInvite tx inner).1 =
      (hiBody tx { inner with tuSender := some tx.tok }).1 ∧
    (handleInvite tx inner).2.2 =
      (hiBody tx { inner with tuSender := some tx.tok }).2.2 :=
  ⟨rfl, rfl, rfl⟩

/-! ## C5 -/

/-- C5: in the TCP read loop, a read of exactly `"\r\n\r\n"`
(`KEEPALIVE_REQUEST`) writes back `"\r\n"` (`KEEPALIVE_RESPONSE`) and emits
no `Incoming` event; a read of exactly `KEEPALIVE_RESPONSE` is consumed with
no effect; and any read of only ASCII whitespace emits no `Incoming` event
(given that no whitespace-only frame decodes to a SIP message, which holds
for `rsip`'s parser). -/
theorem C5_keepalive (parseMsg : List Nat → Option SipMsg)
    (hp : ∀ d : List Nat, d.all isAsciiWhitespace = true → parseMsg d = none)
    (prev data : List Nat) :
    serveLoopStep parseMsg prev KEEPALIVE_REQUEST =
      (overwriteBuf prev KEEPALIVE_REQUEST,
       [TOut.sendRaw KEEPALIVE_RESPONSE]) ∧
    serveLoopStep parseMsg prev KEEPALIVE_RESPONSE =
      (overwriteBuf prev KEEPALIVE_RESPONSE, []) ∧
    (data.all isAsciiWhitespace = true →
      List.filter TOut.isIncoming (serveLoopStep parseMsg prev data).2 = []) := by
  refine ⟨by simp [serveLoopStep, KEEPALIVE_REQUEST, KEEPALIVE_RESPONSE], ?_, ?_⟩
  · simp [serveLoopStep, KEEPALIVE_REQUEST, KEEPALIVE_RESPONSE]
  · intro hws
    unfold serveLoopStep
    by_cases h0 : data.length = 0
    · simp [h0]
    · simp only [h0, if_false]
      by_cases hq : data = KEEPALIVE_REQUEST
      · simp [hq, TOut.isIncoming]
      · by_cases hr : data = KEEPALIVE_RESPONSE
        · simp [hq, hr, KEEPALIVE_REQUEST, KEEPALIVE_RESPONSE]
        · by_cases hb : (overwriteBuf prev data).all isAsciiWhitespace
          · simp [hq, hr, hb]
          · simp [hq, hr, hb, hp data hws]

/-- C5 witness: concrete instantiation with a parser that rejects every
frame and an 8-byte previous buffer. -/
theorem C5_keepalive_witness :
    serveLoopStep (fun _ => none) (List.replicate 8 0) KEEPALIVE_REQUEST =
      (overwriteBuf (List.replicate 8 0) KEEPALIVE_REQUEST,
       [TOut.sendRaw KEEPALIVE_RESPONSE]) ∧
    serveLoopStep (fun _ => none) (List.replicate 8 0) KEEPALIVE_RESPONSE =
      (overwriteBuf (List.replicate 8 0) KEEPALIVE_RESPONSE, []) ∧
    List.filter TOut.isIncoming
      (serveLoopStep (fun _ => none) (List.replicate 8 0) [32, 32]).2 = [] := by
  have h := C5_keepalive (fun _ => none) (fun _ _ => rfl)
    (List.replicate 8 0) [32, 32]
  exact ⟨h.1, h.2.1, h.2.2 (by decide)⟩

/-! ## C7 -/

/-- A server inner with a live transaction sender, awaiting accept. -/
def cInnerLive : DialogInner :=
  { id := cId, initialRequest := cInvite, localSeq := 1, remoteSeq := 1,
    credential := none, state := .calling cId, tuSender := some 7 }

/-- A server inner whose transaction is gone (`tu_sender` absent). -/
def cInnerDead : DialogInner :=
  { cInnerLive with tuSender := none }

/-- C7 counterexample: with no live transaction, `accept` fails with the
message "transaction is already terminated", which is not the message
"already terminated" stated by the claim. -/
theorem C7_counterexample :
    (ServerInviteDialog.accept cInnerDead none none).1 =
      Except.error
        (Err.dialogError "transaction is already terminated" cInnerDead.id) ∧
    "transaction is already terminated" ≠ "already terminated" :=
  ⟨rfl, by decide⟩

/-- C7 (amended): `accept` succeeds only while `tu_sender` is present: it
builds a 200 OK from the initial request plus the supplied headers and body,
dispatches it as `TransactionEvent::Respond`, and transitions to
`WaitAck(resp)`; when no transaction is live it fails with a `DialogError`
whose message is "transaction is already terminated" and the state is
unchanged. -/
theorem C7_accept (inner : DialogInner)
    (headers body : Option (List Nat)) :
    (∀ tok, inner.tuSender = some tok →
      inner.state.isTerminated = false →
      ServerInviteDialog.accept inner headers body =
        (.ok (),
         { inner with state := (.waitAck inner.id
             (inner.makeResponse inner.initialRequest 200 headers body)) },
         [DOut.respond
            (inner.makeResponse inner.initialRequest 200 headers body)])) ∧
    (inner.tuSender = none →
      ServerInviteDialog.accept inner headers body =
        (.error
           (.dialogError "transaction is already terminated" inner.id),
         inner, [])) := by
  constructor
  · intro tok hs ht
    have htr := transition_ok inner
      (.waitAck inner.id
        (inner.makeResponse inner.initialRequest 200 headers body))
      ht (Or.inl rfl)
    simp [ServerInviteDialog.accept, hs, htr]
  · intro hs
    simp [ServerInviteDialog.accept, hs]

/-- C7 witness: a live inner accepts into `WaitAck` with the `Respond`
effect; a dead inner fails with the full message and an unchanged state. -/
theorem C7_accept_witness :
    ServerInviteDialog.accept cInnerLive none none =
      (.ok (),
       { cInnerLive with state := (.waitAck cInnerLive.id
           (cInnerLive.makeResponse cInnerLive.initialRequest 200 none none)) },
       [DOut.respond
          (cInnerLive.makeResponse cInnerLive.initialRequest 200 none none)]) ∧
    ServerInviteDialog.accept cInnerDead none none =
      (.error
         (.dialogError "transaction is already terminated" cInnerDead.id),
       cInnerDead, []) :=
  ⟨(C7_accept cInnerLive none none).1 7 rfl rfl,
   (C7_accept cInnerDead none none).2 rfl⟩

/-! ## C4 -/

/-- C4: in the `handle_invite` receive loop, an inbound ACK transitions the
dialog to `Confirmed` (when the current state admits confirmation); an
inbound CANCEL replies `487 Request Terminated` and then transitions to
`Terminated(Some(487))` (when not already terminated); every other inbound
request and every response is ignored — no effect, no state change. -/
theorem C4_handle_invite_loop (inner : DialogInner) (req : Request)
    (resp : Response) :
    (req.method = .ack → canConfirmFrom inner.state = true →
      hiStep inner (.request req) =
        (.ok (), { inner with state := .confirmed inner.id }, [])) ∧
    (req.method = .cancel → inner.state.isTerminated = false →
      hiStep inner (.request req) =
        (.ok (), { inner with state := .terminated inner.id (some 487) },
         [DOut.reply 487])) ∧
    (req.method ≠ .ack → req.method ≠ .cancel →
      hiStep inner (.request req) = (.ok (), inner, [])) ∧
    hiStep inner (.response resp) = (.ok (), inner, []) := by
  refine ⟨?_, ?_, ?_, rfl⟩
  · intro hm hc
    have hterm : inner.state.isTerminated = false := by
      cases hs : inner.state <;>
        simp_all [canConfirmFrom, DialogState.isTerminated]
    have htr := transition_ok inner (.confirmed inner.id) hterm (Or.inr hc)
    simp [hiStep, hm, htr]
  · intro hm ht
    have htr := transition_ok inner (.terminated inner.id (some 487)) ht
      (Or.inl rfl)
    simp [hiStep, hm, htr]
  · intro hna hnc
    cases hm : req.method <;> simp_all [hiStep]

/-- An inbound ACK on the INVITE transaction. -/
def cAck : Request :=
  { method := .ack, cseq := 1, viaBranch := some "z9hG4bK-1",
    callId := "c1", fromTag := "rt", toTag := "lt", body := [] }

/-- An inbound CANCEL on the INVITE transaction. -/
def cCancel : Request :=
  { cAck with method := .cancel }

/-- A concrete 180 Ringing response. -/
def cRinging : Response :=
  { status := 180, toTag := some "rt", cseq := 1, reasonPhrase := some "Ringing" }

/-- C4 witness: concrete ACK, CANCEL, BYE and a response against a
`Calling`-state server inner. -/
theorem C4_handle_invite_loop_witness :
    hiStep cInnerLive (.request cAck) =
      (.ok (), { cInnerLive with state := .confirmed cInnerLive.id }, []) ∧
    hiStep cInnerLive (.request cCancel) =
      (.ok (),
       { cInnerLive with state := .terminated cInnerLive.id (some 487) },
       [DOut.reply 487]) ∧
    hiStep cInnerLive (.request (cBye 2)) = (.ok (), cInnerLive, []) ∧
    hiStep cInnerLive (.response cRinging) = (.ok (), cInnerLive, []) :=
  ⟨(C4_handle_invite_loop cInnerLive cAck cRinging).1 rfl rfl,
   (C4_handle_invite_loop cInnerLive cCancel cRinging).2.1 rfl rfl,
   (C4_handle_invite_loop cInnerLive (cBye 2) cRinging).2.2.1
     (by decide) (by decide),
   (C4_handle_invite_loop cInnerLive (cBye 2) cRinging).2.2.2⟩

/-! ## C10 -/

/-- C10: when the dialog is confirmed and `do_request` completes, the
server-side `info()` sends the INFO request but performs no state
transition — the dialog state afterwards equals the state before — whereas
the client-side `info()` transitions to `Info(request)` with the INFO
request it just sent. -/
theorem C10_info_state (inner : DialogInner)
    (doReq : Request → Except Err (Option Response)) (v : Option Response)
    (hc : inner.isConfirmed = true)
    (hd : doReq (inner.makeRequest .info none none none).2 = .ok v) :
    (serverInfo inner doReq).1 = .ok () ∧
    (serverInfo inner doReq).2.1.state = inner.state ∧
    (serverInfo inner doReq).2.2 =
      [DOut.sentRequest (inner.makeRequest .info none none none).2] ∧
    (clientInfo inner doReq).1 = .ok () ∧
    (clientInfo inner doReq).2.1.state =
      DialogState.info inner.id (inner.makeRequest .info none none none).2 := by
  have hterm : inner.state.isTerminated = false := by
    cases hs : inner.state <;>
      simp_all [DialogInner.isConfirmed, DialogState.isTerminated]
  have hmkst : (inner.makeRequest .info none none none).1.state =
      inner.state := by
    simp [DialogInner.makeRequest]
  have hmkid : (inner.makeRequest .info none none none).1.id = inner.id := by
    simp [DialogInner.makeRequest]
  have htr := transition_ok (inner.makeRequest .info none none none).1
    (.info inner.id (inner.makeRequest .info none none none).2)
    (by rw [hmkst]; exact hterm) (Or.inl rfl)
  refine ⟨?_, ?_, ?_, ?_, ?_⟩ <;>
    simp [serverInfo, clientInfo, hc, hd, htr, hmkst, hmkid]

/-- An oracle standing for a `do_request` that always succeeds with a 200. -/
def cDoReqOk : Request → Except Err (Option Response) :=
  fun r => .ok (some { status := 200, toTag := some "rt", cseq := r.cseq,
                       reasonPhrase := some "OK" })

/-- C10 witness: on a concrete confirmed dialog with an always-200 oracle,
the server `info()` leaves the state `Confirmed` and the client `info()`
moves it to `Info` with the sent request. -/
theorem C10_info_state_witness :
    (serverInfo cInnerConfirmed cDoReqOk).1 = .ok () ∧
    (serverInfo cInnerConfirmed cDoReqOk).2.1.state = cInnerConfirmed.state ∧
    (serverInfo cInnerConfirmed cDoReqOk).2.2 =
      [DOut.sentRequest
        (cInnerConfirmed.makeRequest .info none none none).2] ∧
    (clientInfo cInnerConfirmed cDoReqOk).1 = .ok () ∧
    (clientInfo cInnerConfirmed cDoReqOk).2.1.state =
      DialogState.info cInnerConfirmed.id
        (cInnerConfirmed.makeRequest .info none none none).2 :=
  C10_info_state cInnerConfirmed cDoReqOk
    (some { status := 200, toTag := some "rt", cseq := 2,
            reasonPhrase := some "OK" }) rfl rfl

/-! ## C1: stale-CSeq handling and the remote_seq fold -/

/-- Processing a whole sequence of inbound transactions through the client
`handle`, keeping the dialog inner across calls. -/
def clientHandleAll (inner : DialogInner) : List Tx → DialogInner
  | [] => inner
  | t :: rest => clientHandleAll (clientHandle inner t).2.1 rest

/-- Processing a whole sequence of inbound transactions through the server
`handle`, keeping the dialog inner across calls. -/
def serverHandleAll (inner : DialogInner) : List Tx → DialogInner
  | [] => inner
  | t :: rest => serverHandleAll (serverHandle inner t).2.1 rest

theorem hiStep_remoteSeq (inner : DialogInner) (msg : SipMsg) :
    (hiStep inner msg).2.1.remoteSeq = inner.remoteSeq := by
  cases msg with
  | request req =>
    cases hm : req.method <;> simp [hiStep, hm] <;>
      first
        | (rcases transition_shape inner (.confirmed inner.id) with h | h <;>
            simp [h])
        | (rcases transition_shape inner
            (.terminated inner.id (some 487)) with h | h <;> simp [h])
  | response r => simp [hiStep]

theorem hiLoop_remoteSeq (msgs : List SipMsg) (inner : DialogInner) :
    (hiLoop inner msgs).2.1.remoteSeq = inner.remoteSeq := by
  induction msgs generalizing inner with
  | nil => simp [hiLoop]
  | cons m rest ih =>
    have hstep := hiStep_remoteSeq inner m
    rcases hr : hiStep inner m with ⟨res, inner1, outs⟩
    rw [hr] at hstep
    cases res with
    | error e => simp [hiLoop, hr]; exact hstep
    | ok _ => simp [hiLoop, hr, ih inner1]; exact hstep

theorem hiBody_remoteSeq (tx : Tx) (inner : DialogInner) :
    (hiBody tx inner).2.1.remoteSeq = inner.remoteSeq := by
  unfold hiBody
  by_cases hc : inner.isConfirmed
  · simp [hc, hiLoop_remoteSeq]
  · simp only [hc]
    rcases transition_shape inner (.calling inner.id) with h | h <;>
      simp [h, hiLoop_remoteSeq]

theorem handleInvite_remoteSeq (tx : Tx) (inner : DialogInner) :
    (handleInvite tx inner).2.1.remoteSeq = inner.remoteSeq := by
  simp [handleInvite, hiBody_remoteSeq]

theorem clientHandleBye_remoteSeq (inner : DialogInner) :
    (clientHandleBye inner).2.1.remoteSeq = inner.remoteSeq := by
  unfold clientHandleBye
  rcases transition_shape inner (.terminated inner.id none) with h | h <;>
    simp [h]

theorem clientHandleInfo_remoteSeq (inner : DialogInner) (tx : Tx) :
    (clientHandleInfo inner tx).2.1.remoteSeq = inner.remoteSeq := by
  unfold clientHandleInfo
  rcases transition_shape inner (.info inner.id tx.original) with h | h <;>
    simp [h]

theorem clientHandleOptions_remoteSeq (inner : DialogInner) (tx : Tx) :
    (clientHandleOptions inner tx).2.1.remoteSeq = inner.remoteSeq := by
  unfold clientHandleOptions
  rcases transition_shape inner (.options inner.id tx.original) with h | h <;>
    simp [h]

theorem serverHandleBye_remoteSeq (inner : DialogInner) :
    (serverHandleBye inner).2.1.remoteSeq = inner.remoteSeq := by
  unfold serverHandleBye
  rcases transition_shape inner (.terminated inner.id none) with h | h <;>
    simp [h]

theorem serverHandleInfo_remoteSeq (inner : DialogInner) (tx : Tx) :
    (serverHandleInfo inner tx).2.1.remoteSeq = inner.remoteSeq := by
  unfold serverHandleInfo
  rcases transition_shape inner (.info inner.id tx.original) with h | h <;>
    simp [h]

theorem serverHandleOptions_remoteSeq (inner : DialogInner) (tx : Tx) :
    (serverHandleOptions inner tx).2.1.remoteSeq = inner.remoteSeq := by
  unfold serverHandleOptions
  rcases transition_shape inner (.options inner.id tx.original) with h | h <;>
    simp [h]

/-- After one client `handle`, `remote_seq` is the max of its old value and
the request's CSeq: a stale request leaves it alone, a fresh one overwrites
it. -/
theorem clientHandle_remoteSeq (inner : DialogInner) (tx : Tx) :
    (clientHandle inner tx).2.1.remoteSeq =
      max inner.remoteSeq tx.original.cseq := by
  unfold clientHandle
  by_cases h : tx.original.cseq < inner.remoteSeq
  · simp [h, Nat.max_eq_left (Nat.le_of_lt h)]
  · rw [Nat.max_eq_right (Nat.le_of_not_lt h)]
    simp only [h, if_false]
    by_cases hc : ({ inner with remoteSeq := tx.original.cseq } :
        DialogInner).isConfirmed
    · simp only [hc, if_true]
      cases hm : tx.original.method <;>
        simp [hm, clientHandleBye_remoteSeq, clientHandleInfo_remoteSeq,
          clientHandleOptions_remoteSeq]
    · simp [hc]

/-- After one server `handle`, `remote_seq` is the max of its old value and
the request's CSeq. -/
theorem serverHandle_remoteSeq (inner : DialogInner) (tx : Tx) :
    (serverHandle inner tx).2.1.remoteSeq =
      max inner.remoteSeq tx.original.cseq := by
  unfold serverHandle
  by_cases h : tx.original.cseq < inner.remoteSeq
  · simp [h, Nat.max_eq_left (Nat.le_of_lt h)]
  · rw [Nat.max_eq_right (Nat.le_of_not_lt h)]
    simp only [h, if_false]
    by_cases hc : ({ inner with remoteSeq := tx.original.cseq } :
        DialogInner).isConfirmed
    · simp only [hc, if_true]
      cases hm : tx.original.method <;>
        simp [hm, serverHandleBye_remoteSeq, serverHandleInfo_remoteSeq,
          serverHandleOptions_remoteSeq, handleInvite_remoteSeq]
    · simp only [hc, if_false]
      cases hm : tx.original.method <;>
        simp [hm, handleInvite_remoteSeq]

theorem clientHandleAll_remoteSeq (txs : List Tx) (inner : DialogInner) :
    (clientHandleAll inner txs).remoteSeq =
      txs.foldl (fun r t => max r t.original.cseq) inner.remoteSeq := by
  induction txs generalizing inner with
  | nil => simp [clientHandleAll]
  | cons t rest ih =>
    simp [clientHandleAll, List.foldl_cons, ih, clientHandle_remoteSeq]

theorem serverHandleAll_remoteSeq (txs : List Tx) (inner : DialogInner) :
    (serverHandleAll inner txs).remoteSeq =
      txs.foldl (fun r t => max r t.original.cseq) inner.remoteSeq := by
  induction txs generalizing inner with
  | nil => simp [serverHandleAll]
  | cons t rest ih =>
    simp [serverHandleAll, List.foldl_cons, ih, serverHandle_remoteSeq]

/-- C1: an inbound request whose CSeq is strictly below `remote_seq` makes
the client `handle` reply 500 and return with the inner record unchanged,
and makes the server `handle` return silently with no reply and no change;
any other request stores its CSeq as the new `remote_seq`; and starting from
`remote_seq = 0`, after a sequence of requests `remote_seq` equals the
maximum CSeq seen. -/
theorem C1_remote_seq (inner : DialogInner) (tx : Tx) (txs : List Tx) :
    (tx.original.cseq < inner.remoteSeq →
      clientHandle inner tx = (.ok (), inner, [DOut.reply 500]) ∧
      serverHandle inner tx = (.ok (), inner, [])) ∧
    (¬ tx.original.cseq < inner.remoteSeq →
      (clientHandle inner tx).2.1.remoteSeq = tx.original.cseq ∧
      (serverHandle inner tx).2.1.remoteSeq = tx.original.cseq) ∧
    (inner.remoteSeq = 0 →
      (clientHandleAll inner txs).remoteSeq =
        (txs.map fun t => t.original.cseq).foldl max 0 ∧
      (serverHandleAll inner txs).remoteSeq =
        (txs.map fun t => t.original.cseq).foldl max 0) := by
  refine ⟨?_, ?_, ?_⟩
  · intro h
    constructor
    · unfold clientHandle; simp [h]
    · unfold serverHandle; simp [h]
  · intro h
    rw [clientHandle_remoteSeq, serverHandle_remoteSeq,
      Nat.max_eq_right (Nat.le_of_not_lt h)]
    exact ⟨rfl, rfl⟩
  · intro h0
    rw [clientHandleAll_remoteSeq, serverHandleAll_remoteSeq, h0,
      List.foldl_map]
    exact ⟨rfl, rfl⟩

/-- C1 witness: a stale CSeq-3 BYE against `remote_seq = 5` (client reply
500, server discard), a fresh CSeq-7 BYE (stored), and the fold over CSeqs
2, 5, 3 from zero ending at 5. -/
theorem C1_remote_seq_witness :
    clientHandle cInnerConfirmed (cTxOf (cBye 3)) =
      (.ok (), cInnerConfirmed, [DOut.reply 500]) ∧
    serverHandle cInnerConfirmed (cTxOf (cBye 3)) =
      (.ok (), cInnerConfirmed, []) ∧
    (clientHandle cInnerConfirmed (cTxOf (cBye 7))).2.1.remoteSeq = 7 ∧
    (serverHandle cInnerConfirmed (cTxOf (cBye 7))).2.1.remoteSeq = 7 ∧
    (clientHandleAll cInnerZero
      [cTxOf (cBye 2), cTxOf (cBye 5), cTxOf (cBye 3)]).remoteSeq = 5 ∧
    (serverHandleAll cInnerZero
      [cTxOf (cBye 2), cTxOf (cBye 5), cTxOf (cBye 3)]).remoteSeq = 5 := by
  have hstale := (C1_remote_seq cInnerConfirmed (cTxOf (cBye 3)) []).1
    (by decide)
  have hfresh := (C1_remote_seq cInnerConfirmed (cTxOf (cBye 7)) []).2.1
    (by decide)
  have hfold := (C1_remote_seq cInnerZero (cTxOf (cBye 3))
    [cTxOf (cBye 2), cTxOf (cBye 5), cTxOf (cBye 3)]).2.2 (by decide)
  exact ⟨hstale.1, hstale.2, hfresh.1, hfresh.2,
    hfold.1.trans (by decide), hfold.2.trans (by decide)⟩

/-! ## C2, C3, C6: the process_invite receive loop -/

/-- The carried loop state of a `piStep` outcome. -/
def PIRes.stateOf : PIRes → PIState
  | .next s _ => s
  | .stop s _ => s
  | .fail _ s _ => s

/-- Whether a `piStep` outcome continues the loop. -/
def PIRes.isNext : PIRes → Bool
  | .next _ _ => true
  | _ => false

/-- The INVITE transaction for the `process_invite` fixtures. -/
def cTx : Tx := { original := cInvite, msgs := [], tok := 1 }

/-- A fresh `process_invite` loop state over `cInnerCalling`. -/
def cPI : PIState :=
  { tx := cTx, inner := cInnerCalling, authSent := false, dialogId := cId0,
    finalResponse := none }

/-- The same loop state but with no branch on the outbound INVITE's Via. -/
def cPINoBranch : PIState :=
  { cPI with tx := { cTx with original := { cInvite with viaBranch := none } } }

/-- A 202 Accepted final response: a 2xx that is not 200. -/
def c2Resp202 : Response :=
  { status := 202, toTag := some "abc", cseq := 1,
    reasonPhrase := some "Accepted" }

/-- A 200 OK final response. -/
def c2Resp200 : Response :=
  { status := 200, toTag := some "abc", cseq := 1, reasonPhrase := some "OK" }

/-- C2 counterexample: 202 Accepted is a 2xx final response, yet
`process_invite` does not transition to `Confirmed` on it — it transitions
to `Terminated(Some(202))` and returns an error, because the code matches
only `StatusCode::OK` (200) for confirmation. -/
theorem C2_counterexample :
    (200 ≤ c2Resp202.status ∧ c2Resp202.status < 300) ∧
    (piStep cPI (.response c2Resp202)).isNext = false ∧
    (piStep cPI (.response c2Resp202)).stateOf.inner.state =
      .terminated { cId0 with remoteTag := "abc" } (some 202) := by
  exact ⟨⟨by decide, by decide⟩, rfl, rfl⟩

/-- C2 (amended): in `process_invite`, for every 200 OK final response (the
only 2xx the code confirms): the response is captured as `final_response`,
the remote tag is absorbed from the To header, the branch of the outbound
INVITE's top Via is extracted — a missing branch yields a `DialogError`
without sending an ACK — the ACK is built with that branch and the
response's CSeq number (not the dialog's `local_seq`), a `DialogId` derived
from the ACK is adopted, the ACK is sent via `send_ack`, and the dialog
transitions to `Confirmed`. -/
theorem C2_ok_final (s : PIState) (resp : Response) (tag branch : String)
    (hst : resp.status = 200)
    (htag : resp.toTag = some tag)
    (hrt : s.inner.id.remoteTag = "")
    (hcf : canConfirmFrom s.inner.state = true) :
    (s.tx.original.viaBranch = some branch →
      piStep s (.response resp) =
        PIRes.next
          { s with
            inner := { s.inner with
              id := { s.inner.id with remoteTag := tag },
              state := (.confirmed { s.inner.id with remoteTag := tag }) },
            dialogId := { s.inner.id with remoteTag := tag },
            finalResponse := some resp }
          [DOut.sendAck
            { method := .ack, cseq := resp.cseq, viaBranch := some branch,
              callId := s.inner.id.callId, fromTag := s.inner.id.localTag,
              toTag := tag, body := [] }]) ∧
    (s.tx.original.viaBranch = none →
      piStep s (.response resp) =
        PIRes.fail
          (.dialogError "no branch found in via header"
             { s.inner.id with remoteTag := tag })
          { s with
            inner := { s.inner with
              id := { s.inner.id with remoteTag := tag } },
            finalResponse := some resp }
          []) := by
  have hterm : s.inner.state.isTerminated = false := by
    cases hs : s.inner.state <;>
      simp_all [canConfirmFrom, DialogState.isTerminated]
  have h100 : resp.status ≠ 100 := by omega
  have h180 : resp.status ≠ 180 := by omega
  have h183 : resp.status ≠ 183 := by omega
  have h401 : resp.status ≠ 401 := by omega
  have h407 : resp.status ≠ 407 := by omega
  have htr := transition_ok
    ({ s.inner with id := { s.inner.id with remoteTag := tag } })
    (.confirmed { s.inner.id with remoteTag := tag })
    (by simpa [DialogState.isTerminated] using hterm)
    (Or.inr (by simpa [canConfirmFrom] using hcf))
  constructor
  · intro hbr
    simp [piStep, hst, h100, h180, h183, h401, h407, htag, hbr,
      DialogInner.updateRemoteTag, hrt, DialogInner.makeRequest,
      DialogId.tryFromRequest, htr]
  · intro hbr
    simp [piStep, hst, h100, h180, h183, h401, h407, htag, hbr,
      DialogInner.updateRemoteTag, hrt]

/-- C2 witness: on the concrete `Calling` dialog, a 200 OK with To-tag
"abc" yields an ACK reusing the INVITE's branch and the response's CSeq,
adopts the tagged dialog id, and confirms; the branchless variant fails
with the `DialogError` and sends nothing. -/
theorem C2_ok_final_witness :
    piStep cPI (.response c2Resp200) =
      PIRes.next
        { cPI with
          inner := { cPI.inner with
            id := { cPI.inner.id with remoteTag := "abc" },
            state := (.confirmed { cPI.inner.id with remoteTag := "abc" }) },
          dialogId := { cPI.inner.id with remoteTag := "abc" },
          finalResponse := some c2Resp200 }
        [DOut.sendAck
          { method := .ack, cseq := c2Resp200.cseq,
            viaBranch := some "z9hG4bK-1",
            callId := cPI.inner.id.callId, fromTag := cPI.inner.id.localTag,
            toTag := "abc", body := [] }] ∧
    piStep cPINoBranch (.response c2Resp200) =
      PIRes.fail
        (.dialogError "no branch found in via header"
           { cPINoBranch.inner.id with remoteTag := "abc" })
        { cPINoBranch with
          inner := { cPINoBranch.inner with
            id := { cPINoBranch.inner.id with remoteTag := "abc" } },
          finalResponse := some c2Resp200 }
        [] :=
  ⟨(C2_ok_final cPI c2Resp200 "abc" "z9hG4bK-1" rfl rfl rfl rfl).1 rfl,
   (C2_ok_final cPINoBranch c2Resp200 "abc" "z9hG4bK-1"
      rfl rfl rfl rfl).2 rfl⟩

/-- A 401 Unauthorized challenge response. -/
def c3Resp401 : Response :=
  { status := 401, toTag := some "abc", cseq := 1,
    reasonPhrase := some "Unauthorized" }

/-- C3 counterexample: a 401 arriving on a dialog with no credential makes
the loop continue with the state `Terminated(Some(401))`, but the response
is NOT recorded as the final response — `final_response` stays `none`,
contrary to the claim. -/
theorem C3_counterexample :
    (piStep cPI (.response c3Resp401)).isNext = true ∧
    (piStep cPI (.response c3Resp401)).stateOf.inner.state =
      .terminated cId0 (some 401) ∧
    (piStep cPI (.response c3Resp401)).stateOf.finalResponse = none :=
  ⟨rfl, rfl, rfl⟩

/-- C3 (amended): in `process_invite`, when a 401 or 407 response arrives
and the dialog holds no credential (and no earlier challenge consumed one),
the dialog transitions to `Terminated(status)` and the receive loop
continues (does not break) — but the response is NOT recorded as the final
response: `final_response` is left unchanged. -/
theorem C3_auth_no_credential (s : PIState) (resp : Response)
    (hs : resp.status = 401 ∨ resp.status = 407)
    (ha : s.authSent = false)
    (hc : s.inner.credential = none)
    (ht : s.inner.state.isTerminated = false) :
    piStep s (.response resp) =
      PIRes.next
        { s with authSent := true,
                 inner := { s.inner with
                   state := (.terminated s.inner.id (some resp.status)) } }
        [] := by
  have htr := transition_ok s.inner
    (.terminated s.inner.id (some resp.status)) ht (Or.inl rfl)
  rcases hs with h | h <;> rw [h] at htr <;> simp [piStep, h, ha, hc, htr]

/-- C3 witness: the concrete 401 on the credential-less `Calling` dialog. -/
theorem C3_auth_no_credential_witness :
    piStep cPI (.response c3Resp401) =
      PIRes.next
        { cPI with authSent := true,
                   inner := { cPI.inner with
                     state := (.terminated cPI.inner.id (some 401)) } }
        [] :=
  C3_auth_no_credential cPI c3Resp401 (Or.inl rfl) rfl rfl rfl

/-- A 603 Decline final response carrying a To tag, as RFC-compliant final
responses do. -/
def c6Resp603 : Response :=
  { status := 603, toTag := some "abc", cseq := 1,
    reasonPhrase := some "Decline" }

/-- The dialog inner after the 603's To tag "abc" has been absorbed into
`cInnerCalling`. -/
def c6Inner1 : DialogInner :=
  { cInnerCalling with id := { cId0 with remoteTag := "abc" } }

theorem updateRemoteTag_ok_state (inner inner' : DialogInner) (tag : String)
    (h : inner.updateRemoteTag tag = .ok inner') :
    inner'.state = inner.state := by
  unfold DialogInner.updateRemoteTag at h
  by_cases h1 : inner.id.remoteTag = ""
  · simp [h1] at h
    rw [← h]
  · by_cases h2 : inner.id.remoteTag = tag
    · rw [h2] at h1
      simp [h1, h2] at h
      rw [← h]
    · simp [h1, h2] at h

/-- C6: in `process_invite`, for every non-2xx final response outside
100/180/183/401/407 (3xx-6xx with a present reason phrase, whose To tag —
present or absent — is absorbed without a mismatch, yielding the inner
record `inner1`): an ACK is built and sent exactly as for a 2xx (same
branch, response's CSeq), the dialog transitions to
`Terminated(Some(status))`, and `process_invite` returns a `DialogError`
whose message is the status display, a semicolon, and the reason phrase. -/
theorem C6_non2xx_final (s : PIState) (resp : Response) (branch rp : String)
    (inner1 : DialogInner)
    (h3 : 300 ≤ resp.status) (h6 : resp.status ≤ 699)
    (h401 : resp.status ≠ 401) (h407 : resp.status ≠ 407)
    (htag : (match resp.toTag with
             | some tag => s.inner.updateRemoteTag tag
             | none => Except.ok s.inner) = Except.ok inner1)
    (hbr : s.tx.original.viaBranch = some branch)
    (hrp : resp.reasonPhrase = some rp)
    (ht : s.inner.state.isTerminated = false) :
    piStep s (.response resp) =
      PIRes.fail
        (.dialogError (statusCodeDisplay resp.status ++ ";" ++ rp)
           inner1.id)
        { s with
          inner := { inner1 with
            state := (.terminated inner1.id (some resp.status)) },
          dialogId := inner1.id,
          finalResponse := some resp }
        [DOut.sendAck
          { method := .ack, cseq := resp.cseq, viaBranch := some branch,
            callId := inner1.id.callId, fromTag := inner1.id.localTag,
            toTag := inner1.id.remoteTag, body := [] }] := by
  have h100 : resp.status ≠ 100 := by omega
  have h180 : resp.status ≠ 180 := by omega
  have h183 : resp.status ≠ 183 := by omega
  have h200 : resp.status ≠ 200 := by omega
  have hst1 : inner1.state = s.inner.state := by
    rcases hto : resp.toTag with _ | tag
    · rw [hto] at htag
      simp only [Except.ok.injEq] at htag
      rw [← htag]
    · rw [hto] at htag
      exact updateRemoteTag_ok_state s.inner inner1 tag htag
  have htr := transition_ok inner1
    (.terminated inner1.id (some resp.status))
    (by rw [hst1]; exact ht) (Or.inl rfl)
  rcases hto : resp.toTag with _ | tag
  · rw [hto] at htag
    simp only [Except.ok.injEq] at htag
    subst htag
    simp [piStep, h100, h180, h183, h200, h401, h407, hto, hbr, hrp,
      DialogInner.makeRequest, DialogId.tryFromRequest, htr]
  · rw [hto] at htag
    have htag2 : s.inner.updateRemoteTag tag = Except.ok inner1 := htag
    simp [piStep, h100, h180, h183, h200, h401, h407, hto, htag2, hbr, hrp,
      DialogInner.makeRequest, DialogId.tryFromRequest, htr]

/-- C6 witness: the concrete 603 Decline with To tag "abc" produces the ACK
with the INVITE's branch and the absorbed tag, the `Terminated(Some(603))`
transition, and the "603;Decline" error. -/
theorem C6_non2xx_final_witness :
    piStep cPI (.response c6Resp603) =
      PIRes.fail
        (.dialogError (statusCodeDisplay c6Resp603.status ++ ";" ++ "Decline")
           c6Inner1.id)
        { cPI with
          inner := { c6Inner1 with
            state := (.terminated c6Inner1.id (some c6Resp603.status)) },
          dialogId := c6Inner1.id,
          finalResponse := some c6Resp603 }
        [DOut.sendAck
          { method := .ack, cseq := c6Resp603.cseq,
            viaBranch := some "z9hG4bK-1",
            callId := c6Inner1.id.callId, fromTag := c6Inner1.id.localTag,
            toTag := c6Inner1.id.remoteTag, body := [] }] :=
  C6_non2xx_final cPI c6Resp603 "z9hG4bK-1" "Decline" c6Inner1
    (by decide) (by decide) (by decide) (by decide) rfl rfl rfl rfl

end Rsipstack
